import Mathlib

set_option autoImplicit false

/-!
Shallow embedding of the query-intent routing and SQL-generation pipeline of
the expense chatbot (source: `main_streamlit.py`).  Pure string helpers model
the Python primitives the code uses (`str.strip`, `str.lower`,
`str.startswith`, the `in` substring test, `float(...)`); the Streamlit
session state becomes explicit state passing, and the two external
collaborators (the completion service and the relational store) become oracle
functions carried in an environment record.  Numbers are modelled as exact
decimals `mant * 10 ^ exp` (every string accepted by `float` denotes one),
so formatting and parsing are executable integer arithmetic.
-/

/-! ### Python string primitives -/

/-- The ASCII whitespace characters removed by Python `str.strip()`
(space, tab, newline, carriage return, vertical tab, form feed). -/
def isPySpace (c : Char) : Bool :=
  c.toNat = 32 || c.toNat = 9 || c.toNat = 10 || c.toNat = 13 ||
    c.toNat = 11 || c.toNat = 12

/-- Drop the longest suffix of characters satisfying `p`. -/
def dropTrail (p : Char → Bool) : List Char → List Char
  | [] => []
  | c :: cs =>
    match dropTrail p cs with
    | [] => if p c then [] else [c]
    | cs' => c :: cs'

/-- Python `str.strip()`: remove leading and trailing whitespace. -/
def pyStrip (s : String) : String :=
  ⟨dropTrail isPySpace (s.data.dropWhile isPySpace)⟩

/-- ASCII lower-casing of one character (what `str.lower()` does on the
ASCII texts this program handles). -/
def pyCharLower (c : Char) : Char :=
  if 65 ≤ c.toNat && c.toNat ≤ 90 then Char.ofNat (c.toNat + 32) else c

/-- Python `str.lower()`. -/
def pyLower (s : String) : String :=
  ⟨s.data.map pyCharLower⟩

/-- Does the character list start with the given pattern list? -/
def startsList : List Char → List Char → Bool
  | [], _ => true
  | _ :: _, [] => false
  | p :: ps, c :: cs => p = c && startsList ps cs

/-- Python `s.startswith(pat)`. -/
def pyStarts (s pat : String) : Bool :=
  startsList pat.data s.data

/-- Is `p` a contiguous sublist of the second argument? -/
def subList (p : List Char) : List Char → Bool
  | [] => p.isEmpty
  | c :: cs => startsList p (c :: cs) || subList p cs

/-- Python substring test `pat in s`. -/
def strContains (s pat : String) : Bool :=
  subList pat.data s.data

/-! ### Exact decimal numbers and Python float() -/

/-- An exact decimal number `mant * 10 ^ exp`.  Every numeric literal that
Python `float(...)` accepts denotes such a value; arithmetic on them stays
within integer primitives. -/
structure Dec where
  mant : Int
  exp : Int
deriving DecidableEq

/-- Ten to the `k` as an integer. -/
def pow10 (k : Nat) : Int :=
  Int.ofNat (Nat.pow 10 k)

/-- Numeric value of a list of decimal digit characters. -/
def digitsVal (cs : List Char) : Nat :=
  cs.foldl (fun acc c => acc * 10 + (c.toNat - 48)) 0

/-- Parse an optional exponent suffix (`e5`, `E-3`, ...) and shift the
exponent of `base` accordingly. -/
def pyFloatExp (base : Dec) : List Char → Option Dec
  | [] => some base
  | c :: cs =>
    if c = 'e' || c = 'E' then
      let (neg, ds) :=
        match cs with
        | '-' :: rest => (true, rest)
        | '+' :: rest => (false, rest)
        | rest => (false, rest)
      if ds.isEmpty || !(ds.all Char.isDigit) then none
      else
        let k : Int := Int.ofNat (digitsVal ds)
        some ⟨base.mant, base.exp + (if neg then -k else k)⟩
    else none

/-- Parse an unsigned decimal number (digits, optional `.` and fraction,
optional exponent). -/
def pyFloatUnsigned (cs : List Char) : Option Dec :=
  let ipart := cs.takeWhile Char.isDigit
  let rest := cs.dropWhile Char.isDigit
  match rest with
  | c :: rest2 =>
    if c = '.' then
      let fpart := rest2.takeWhile Char.isDigit
      let rest3 := rest2.dropWhile Char.isDigit
      if ipart.isEmpty && fpart.isEmpty then none
      else
        pyFloatExp ⟨Int.ofNat (digitsVal (ipart ++ fpart)), -(Int.ofNat fpart.length)⟩ rest3
    else if ipart.isEmpty then none
    else pyFloatExp ⟨Int.ofNat (digitsVal ipart), 0⟩ (c :: rest2)
  | [] =>
    if ipart.isEmpty then none
    else pyFloatExp ⟨Int.ofNat (digitsVal ipart), 0⟩ []

/-- Python `float(s)` for strings: `some` of the parsed decimal value, or
`none` when `float` would raise `ValueError`.  (The special spellings
`inf`/`nan` and underscore digit separators are not modelled; no claim
depends on them and the currency formatter never produces them.) -/
def pyFloat (s : String) : Option Dec :=
  match (pyStrip s).data with
  | [] => none
  | c :: cs =>
    if c = '-' then (pyFloatUnsigned cs).map (fun d => ⟨-d.mant, d.exp⟩)
    else if c = '+' then pyFloatUnsigned cs
    else pyFloatUnsigned (c :: cs)

/-! ### The `:,.2f` format specifier -/

/-- Round `d * 100` to the nearest integer, ties to even (the rounding used
when a value is rendered with two decimal places). -/
def round2 (d : Dec) : Int :=
  let e := d.exp + 2
  if 0 ≤ e then d.mant * pow10 e.toNat
  else
    let p := pow10 (-e).toNat
    let q := Int.fdiv d.mant p
    let r := Int.fmod d.mant p
    if 2 * r < p then q
    else if p < 2 * r then q + 1
    else if q % 2 = 0 then q else q + 1

/-- Insert a comma before every group of three digits, counting from the
right (Python's `,` grouping option). -/
def groupAux3 : List Char → List Char
  | a :: b :: c :: d :: rest => a :: b :: c :: ',' :: groupAux3 (d :: rest)
  | l => l

/-- Thousands grouping applied to a digit list (reverse, group, reverse). -/
def groupThousands (ds : List Char) : List Char :=
  (groupAux3 ds.reverse).reverse

/-- Render a number as Python `f"{value:,.2f}"`: sign, thousands-grouped
integer part, a dot and exactly two fractional digits. -/
def pyFormat2f (d : Dec) : String :=
  let n := round2 d
  let a := n.natAbs
  let ip := a / 100
  let fp := a % 100
  let fracStr := if fp < 10 then "0" ++ Nat.repr fp else Nat.repr fp
  (if n < 0 then "-" else "") ++ ⟨groupThousands (Nat.repr ip).data⟩ ++ "." ++ fracStr

/-! ### Data model -/

/-- A cell of a query result: a number or a string (`float(...)` succeeds on
a number and may succeed or fail on a string). -/
inductive Cell where
  | num (d : Dec)
  | str (s : String)
deriving DecidableEq

/-- A tabular query result: ordered named columns, each an ordered list of
cell values (one per row). -/
structure DataFrame where
  cols : List (String × List Cell)
deriving DecidableEq

/-- A chat message body: plain text or a tabular result. -/
inductive ChatContent where
  | text (s : String)
  | table (d : DataFrame)
deriving DecidableEq

/-- One entry of the conversation log (`{"message": ..., "sender": ...}`). -/
structure Message where
  message : ChatContent
  sender : String
deriving DecidableEq

/-- Source `add_message`: append one entry to the conversation log. -/
def add_message (messages : List Message) (msg : ChatContent) (sender : String) :
    List Message :=
  messages ++ [⟨msg, sender⟩]

/-! ### INR formatter -/

/-- Source `format_inr`: try `float(value)`; on success return the `₹`-prefixed
`:,.2f` rendering, on failure return the value unchanged. -/
def format_inr (value : Cell) : Cell :=
  match value with
  | .num d => .str ("₹" ++ pyFormat2f d)
  | .str s =>
    match pyFloat s with
    | some d => .str ("₹" ++ pyFormat2f d)
    | none => .str s

/-- Is this a money column: does the lower-cased name contain `cost`,
`expense` or `salary`? -/
def isMoneyCol (name : String) : Bool :=
  (["cost", "expense", "salary"]).any (fun kw => strContains (pyLower name) kw)

/-- Source `format_money_columns` on a DataFrame (the `isinstance` branch of the
source; non-DataFrame arguments are returned unchanged there and the call
site always passes a DataFrame): apply `format_inr` to every cell of every
money column, leave the other columns alone. -/
def format_money_columns (data : DataFrame) : DataFrame :=
  ⟨data.cols.map (fun c => if isMoneyCol c.1 then (c.1, c.2.map format_inr) else c)⟩

/-! ### Table router -/

/-- Keywords of the first router branch (overheads). -/
def costKeywords : List String :=
  ["cost", "overhead", "fee", "compliance", "maintenance"]

/-- Keywords of the second router branch (variable expenses). -/
def expenseKeywords : List String :=
  ["expense", "freelancer", "agency", "marketing"]

/-- Keywords of the third router branch (salaries). -/
def salaryKeywords : List String :=
  ["salary", "payroll", "employee"]

/-- Python `any(word in lo for word in kws)`. -/
def containsAny (lo : String) (kws : List String) : Bool :=
  kws.any (fun w => strContains lo w)

/-- The forced-table selection of `handle_message`: first-match-wins keyword
branches over the lower-cased user text. -/
def forced_table (user_input : String) : Option String :=
  let lo := pyLower user_input
  if containsAny lo costKeywords then some ("ohs_oes")
  else if containsAny lo expenseKeywords then some ("variable_expense")
  else if containsAny lo salaryKeywords then some ("salary_expense")
  else none

/-! ### Prompts -/

/-- The static `SCHEMA_CONTEXT` string injected into every prompt. -/
def SCHEMA_CONTEXT : String :=
  "\nYou are connected to a database with the following schema:\n\nTable 1: ohs_oes (Overheads and Other Expenses)\nColumns:\n- S_No\n- Month\n- Year\n- Location\n- Expense Segment\n- Department\n- Expense Type\n- Cost\n\nTable 2: salary_expense\nColumns:\n- S_No\n- Month\n- Year\n- Expense Segment\n- Department\n- Location\n- Employee Code\n- Employee Name\n- Salary\n\nTable 3: variable_expense\nColumns:\n- Month\n- Year\n- Location\n- Expense Segment\n- Department\n- Expense Type\n- Modelling Agency Name/Freelancer Name\n- Expense\n"

/-- The classification prompt built by `classify_intent`. -/
def intent_prompt (msg : String) : String :=
  "\n    " ++ SCHEMA_CONTEXT ++
  "\n\n    Classify the following user request into one of three categories:\n    1. db_query - direct request for data\n    2. prediction - forecasting, trend analysis, estimation, classification\n    3. smalltalk - greeting, farewell, thanking, or chit-chat\n\n    User request: \"" ++
  msg ++
  "\"\n\n    Answer with only one word: db_query, prediction, or smalltalk.\n    "

/-- Source `build_sql_prompt`: schema, the literal user request, the fixed rule
set, and the forced-table instruction when a table was routed. -/
def build_sql_prompt (user_input : String) (forcedTbl : Option String) : String :=
  "\n    " ++ SCHEMA_CONTEXT ++
  "\n\n    The user request is: \"" ++ user_input ++
  "\".\n\n    Rules:\n    - Always generate valid MySQL SQL queries.\n    - If the request contains the word \"by\" (e.g. \"month and department by cost\"),\n      interpret it as a GROUP BY request.\n    - Extract mentioned columns (like Month, Department, Location) and group by them.\n    - Always SUM numeric fields like Cost, Expense, Salary and alias them clearly.\n    - Also ORDER BY the grouped columns in the same order as requested.\n    - Use correct column names only from schema.\n    " ++
  (match forcedTbl with
   | some t => "Force the query to use this table: " ++ t
   | none => "") ++
  "\n    Only return the SQL query.\n    "

/-- Textual rendering of a cell when a DataFrame is interpolated into an
f-string. -/
def cellToString : Cell → String
  | .num d => Int.repr d.mant ++ "e" ++ Int.repr d.exp
  | .str s => s

/-- Models the textual rendering of a pandas DataFrame inside an f-string
(`f"... {history} ..."`): column names and their values, serialized
deterministically.  Only its presence inside the prediction prompt matters
to the claims, not its exact layout. -/
def dfToString (d : DataFrame) : String :=
  String.intercalate ("\n")
    (d.cols.map (fun c => c.1 ++ ": " ++ String.intercalate ("  ") (c.2.map cellToString)))

/-- The forecast prompt built for prediction intent, containing the
serialized (already currency-formatted) table. -/
def prediction_prompt (user_input : String) (history : DataFrame) : String :=
  "\n                User asked: \"" ++ user_input ++
  "\".\n\n                Historical data:\n                " ++
  dfToString history ++
  "\n\n                Based on this data, make a prediction or forecast.\n                Show results clearly in a table (if possible).\n                Format monetary values (Cost, Expense, Salary) in INR (₹).\n                Provide a short explanation of the trend.\n                "

/-- The generic conversational prompt used on the smalltalk/default path. -/
def smalltalk_prompt (user_input : String) : String :=
  "The user said: \x27" ++ user_input ++
  "\x27. Respond naturally, conversationally. No databases or predictions."

/-! ### Environment and turn handler -/

/-- The two external collaborators, modelled as oracles: the completion
service (`llm.predict`) and the relational store, which either returns a
tabular result for a SQL string or fails with an error message (the
exception text of the `except` branch). -/
structure Env where
  llm : String → String
  store : String → Except String DataFrame

/-- Source `classify_intent`: ask the completion service for a label, then strip
and lower-case its reply. -/
def classify_intent (env : Env) (msg : String) : String :=
  pyLower (pyStrip (env.llm (intent_prompt msg)))

/-- The outcome of one call to `handle_message`: the new conversation log,
plus the effect trace of the turn — every prompt sent to the completion
service and every SQL string handed to the store, in order. -/
structure TurnResult where
  messages : List Message
  llmPrompts : List String
  storeQueries : List String
deriving DecidableEq

/-- Source `handle_message`, as explicit state passing over the conversation log.
Blank input returns immediately.  Otherwise the user message is appended,
the table router and the intent classifier run, and the turn follows the
source's branches: the data path (SQL generation, the `startswith("select")`
gate, execution, currency formatting, presentation) when the intent label is
`prediction` or `db_query`, the generic conversational path otherwise.
Store failure is the `except` branch around `connection.execute`. -/
def handle_message (env : Env) (messages : List Message) (user_input : String) :
    TurnResult :=
  if pyStrip user_input = "" then
    ⟨messages, [], []⟩
  else
    let m1 := add_message messages (.text user_input) "user"
    let forcedTbl := forced_table user_input
    let intent := classify_intent env user_input
    if intent ∈ (["prediction", "db_query"] : List String) then
      let sql_prompt := build_sql_prompt user_input forcedTbl
      let sql_query := pyStrip (env.llm sql_prompt)
      if !(pyStarts (pyLower sql_query) ("select")) then
        ⟨add_message m1 (.text ("Sorry, I could not create a valid SQL query. Please rephrase.")) "bot",
         [intent_prompt user_input, sql_prompt], []⟩
      else
        match env.store sql_query with
        | .error e =>
          ⟨add_message m1 (.text ("I tried to run a query but got an error: " ++ e ++ ".")) "bot",
           [intent_prompt user_input, sql_prompt], [sql_query]⟩
        | .ok df =>
          let history := format_money_columns df
          if intent = "prediction" then
            let pp := prediction_prompt user_input history
            ⟨add_message m1 (.text (env.llm pp)) "bot",
             [intent_prompt user_input, sql_prompt, pp], [sql_query]⟩
          else
            ⟨add_message m1 (.table history) "bot",
             [intent_prompt user_input, sql_prompt], [sql_query]⟩
    else
      let sp := smalltalk_prompt user_input
      ⟨add_message m1 (.text (env.llm sp)) "bot",
       [intent_prompt user_input, sp], []⟩

/-- The candidate SQL string of a turn: the completion service's reply to
the SQL prompt, stripped of surrounding whitespace (line 165 of the
source).  `handle_message` computes exactly this string. -/
def gen_sql (env : Env) (user_input : String) : String :=
  pyStrip (env.llm (build_sql_prompt user_input (forced_table user_input)))


/-! ### Supporting lemmas -/

theorem startsList_append_self (p rest : List Char) :
    startsList p (p ++ rest) = true := by
  induction p with
  | nil => rfl
  | cons c cs ih => simp [startsList, ih]

theorem subList_nil_pat (l : List Char) : subList [] l = true := by
  cases l <;> simp [subList, startsList]

theorem subList_middle (a p b : List Char) : subList p (a ++ (p ++ b)) = true := by
  induction a with
  | nil =>
    cases p with
    | nil => exact subList_nil_pat b
    | cons c cs =>
      have h := startsList_append_self (c :: cs) b
      simp only [List.cons_append] at h
      simp [subList, h]
  | cons c cs ih => simp [subList, ih]

theorem strContains_middle (x m y : String) : strContains (x ++ m ++ y) m = true := by
  obtain ⟨lx⟩ := x
  obtain ⟨lm⟩ := m
  obtain ⟨ly⟩ := y
  show subList lm ((lx ++ lm) ++ ly) = true
  rw [List.append_assoc]
  exact subList_middle lx lm ly

theorem dropTrail_cons_of_neg (p : Char → Bool) (c : Char) (cs : List Char)
    (h : p c = false) : dropTrail p (c :: cs) = c :: dropTrail p cs := by
  cases hd : dropTrail p cs <;> simp [dropTrail, hd, h]

theorem pyFloat_rupee (t : String) : pyFloat ("₹" ++ t) = none := by
  obtain ⟨l⟩ := t
  show pyFloat ⟨'₹' :: l⟩ = none
  have hsp : isPySpace '₹' = false := by decide
  have h1 : (pyStrip ⟨'₹' :: l⟩).data = '₹' :: dropTrail isPySpace l := by
    simp [pyStrip, List.dropWhile_cons, hsp, dropTrail_cons_of_neg _ _ _ hsp]
  simp only [pyFloat, h1]
  have h2 : pyFloatUnsigned ('₹' :: dropTrail isPySpace l) = none := by
    simp [pyFloatUnsigned, List.takeWhile_cons, List.dropWhile_cons]
  simp [h2]

theorem format_inr_idem (v : Cell) : format_inr (format_inr v) = format_inr v := by
  cases v with
  | num d => simp [format_inr, pyFloat_rupee]
  | str s =>
    cases h : pyFloat s with
    | none => simp [format_inr, h]
    | some d => simp [format_inr, h, pyFloat_rupee]

theorem format_money_columns_idem (d : DataFrame) :
    format_money_columns (format_money_columns d) = format_money_columns d := by
  obtain ⟨cols⟩ := d
  simp only [format_money_columns, List.map_map, DataFrame.mk.injEq]
  apply List.map_congr_left
  intro c _
  by_cases h : isMoneyCol c.1 = true
  · simp [h, Function.comp, List.map_map, format_inr_idem]
  · simp [Function.comp, if_neg h]

/-! ### Claim theorems -/

/-- C5: currency formatting is deterministic for numeric input — the number
`1234.5` maps to `₹1,234.50` (currency symbol, two decimal places, thousands
separator), every numeric input maps to a `₹`-prefixed string — and any
input that fails numeric parsing is returned unchanged, so `format_inr` is
idempotent on parse-failing strings. -/
theorem format_inr_spec :
    format_inr (.num ⟨12345, -1⟩) = .str ("₹1,234.50") ∧
    (∀ d : Dec, format_inr (.num d) = .str ("₹" ++ pyFormat2f d)) ∧
    (∀ s : String, pyFloat s = none → format_inr (.str s) = .str s) ∧
    (∀ s : String, pyFloat s = none →
      format_inr (format_inr (.str s)) = format_inr (.str s)) := by
  refine ⟨by decide, fun d => rfl, fun s h => by simp [format_inr, h], fun s h => ?_⟩
  simp [format_inr, h]

/-- Witness for C5 at concrete inputs: `"abc"` fails numeric parsing and is
returned unchanged. -/
theorem format_inr_spec_witness :
    pyFloat ("abc") = none ∧ format_inr (.str ("abc")) = .str ("abc") :=
  ⟨by decide, format_inr_spec.2.2.1 "abc" (by decide)⟩

/-- C10: `format_inr` is idempotent on every input — numeric input is
rendered with a `₹` prefix, a `₹`-prefixed string never parses as a number,
so a second application returns its argument unchanged — and consequently
`format_money_columns` applied twice to any DataFrame equals one
application. -/
theorem format_inr_idempotent_all :
    (∀ d : Dec, format_inr (.num d) = .str ("₹" ++ pyFormat2f d)) ∧
    (∀ t : String, pyFloat ("₹" ++ t) = none) ∧
    (∀ v : Cell, format_inr (format_inr v) = format_inr v) ∧
    (∀ d : DataFrame, format_money_columns (format_money_columns d) = format_money_columns d) :=
  ⟨fun _ => rfl, pyFloat_rupee, format_inr_idem, format_money_columns_idem⟩

/-- Witness for C10 at a concrete cell: double application on the number
`1234.5` equals single application. -/
theorem format_inr_idempotent_all_witness :
    format_inr (format_inr (.num ⟨12345, -1⟩)) = format_inr (.num ⟨12345, -1⟩) :=
  format_inr_idempotent_all.2.2.1 (.num ⟨12345, -1⟩)

/-! ### Branch lemmas for the turn handler -/

theorem handle_message_blank (env : Env) (msgs : List Message) (u : String)
    (h : pyStrip u = "") : handle_message env msgs u = ⟨msgs, [], []⟩ := by
  simp [handle_message, h]

theorem handle_message_smalltalk (env : Env) (msgs : List Message) (u : String)
    (hne : ¬ pyStrip u = "")
    (hi : classify_intent env u ∉ (["prediction", "db_query"] : List String)) :
    handle_message env msgs u =
      ⟨msgs ++ [⟨.text u, "user"⟩, ⟨.text (env.llm (smalltalk_prompt u)), "bot"⟩],
       [intent_prompt u, smalltalk_prompt u], []⟩ := by
  simp [handle_message, hne, hi, add_message]

theorem handle_message_data_reject (env : Env) (msgs : List Message) (u : String)
    (hne : ¬ pyStrip u = "")
    (hi : classify_intent env u ∈ (["prediction", "db_query"] : List String))
    (hg : pyStarts (pyLower (gen_sql env u)) ("select") = false) :
    handle_message env msgs u =
      ⟨msgs ++ [⟨.text u, "user"⟩,
        ⟨.text ("Sorry, I could not create a valid SQL query. Please rephrase."), "bot"⟩],
       [intent_prompt u, build_sql_prompt u (forced_table u)], []⟩ := by
  simp only [gen_sql] at hg
  simp [handle_message, hne, hi, hg, add_message]

theorem handle_message_store_error (env : Env) (msgs : List Message) (u e : String)
    (hne : ¬ pyStrip u = "")
    (hi : classify_intent env u ∈ (["prediction", "db_query"] : List String))
    (hg : pyStarts (pyLower (gen_sql env u)) ("select") = true)
    (hs : env.store (gen_sql env u) = .error e) :
    handle_message env msgs u =
      ⟨msgs ++ [⟨.text u, "user"⟩,
        ⟨.text ("I tried to run a query but got an error: " ++ e ++ "."), "bot"⟩],
       [intent_prompt u, build_sql_prompt u (forced_table u)], [gen_sql env u]⟩ := by
  simp only [gen_sql] at hg hs
  simp [handle_message, hne, hi, hg, hs, add_message, gen_sql]

theorem handle_message_ok_prediction (env : Env) (msgs : List Message) (u : String)
    (df : DataFrame)
    (hne : ¬ pyStrip u = "")
    (hi : classify_intent env u = "prediction")
    (hg : pyStarts (pyLower (gen_sql env u)) ("select") = true)
    (hs : env.store (gen_sql env u) = .ok df) :
    handle_message env msgs u =
      ⟨msgs ++ [⟨.text u, "user"⟩,
        ⟨.text (env.llm (prediction_prompt u (format_money_columns df))), "bot"⟩],
       [intent_prompt u, build_sql_prompt u (forced_table u),
        prediction_prompt u (format_money_columns df)],
       [gen_sql env u]⟩ := by
  simp only [gen_sql] at hg hs
  simp [handle_message, hne, hi, hg, hs, add_message, gen_sql]

theorem handle_message_ok_db (env : Env) (msgs : List Message) (u : String)
    (df : DataFrame)
    (hne : ¬ pyStrip u = "")
    (hi : classify_intent env u = "db_query")
    (hg : pyStarts (pyLower (gen_sql env u)) ("select") = true)
    (hs : env.store (gen_sql env u) = .ok df) :
    handle_message env msgs u =
      ⟨msgs ++ [⟨.text u, "user"⟩, ⟨.table (format_money_columns df), "bot"⟩],
       [intent_prompt u, build_sql_prompt u (forced_table u)],
       [gen_sql env u]⟩ := by
  simp only [gen_sql] at hg hs
  simp [handle_message, hne, hi, hg, hs, add_message, gen_sql]

theorem intent_label_cases (env : Env) (u : String)
    (hi : classify_intent env u ∈ (["prediction", "db_query"] : List String)) :
    classify_intent env u = "prediction" ∨ classify_intent env u = "db_query" := by
  simpa using hi

/-- Every turn either leaves the log untouched (blank input) or appends the
user message followed by exactly one bot message. -/
theorem handle_message_shape (env : Env) (msgs : List Message) (u : String) :
    (handle_message env msgs u).messages = msgs ∨
    ∃ b, (handle_message env msgs u).messages =
      msgs ++ [⟨.text u, "user"⟩, ⟨b, "bot"⟩] := by
  by_cases h : pyStrip u = ""
  · exact Or.inl (by rw [handle_message_blank env msgs u h])
  · right
    by_cases hi : classify_intent env u ∈ (["prediction", "db_query"] : List String)
    · by_cases hg : pyStarts (pyLower (gen_sql env u)) ("select") = true
      · cases hs : env.store (gen_sql env u) with
        | error e =>
          exact ⟨_, by rw [handle_message_store_error env msgs u e h hi hg hs]⟩
        | ok df =>
          rcases intent_label_cases env u hi with hp | hdb
          · exact ⟨_, by rw [handle_message_ok_prediction env msgs u df h hp hg hs]⟩
          · exact ⟨_, by rw [handle_message_ok_db env msgs u df h hdb hg hs]⟩
      · have hg' : pyStarts (pyLower (gen_sql env u)) ("select") = false := by
          simpa using hg
        exact ⟨_, by rw [handle_message_data_reject env msgs u h hi hg']⟩
    · exact ⟨_, by rw [handle_message_smalltalk env msgs u h hi]⟩

/-- C2: the table router is a pure function of the lower-cased user text
with ordered, first-match-wins branches — cost keywords force `ohs_oes`,
otherwise expense keywords force `variable_expense`, otherwise salary
keywords force `salary_expense`, otherwise no table — and its result is
always one of the three known tables or none. -/
theorem router_first_match (t : String) :
    (containsAny (pyLower t) costKeywords = true →
      forced_table t = some ("ohs_oes")) ∧
    (containsAny (pyLower t) costKeywords = false →
      containsAny (pyLower t) expenseKeywords = true →
      forced_table t = some ("variable_expense")) ∧
    (containsAny (pyLower t) costKeywords = false →
      containsAny (pyLower t) expenseKeywords = false →
      containsAny (pyLower t) salaryKeywords = true →
      forced_table t = some ("salary_expense")) ∧
    (containsAny (pyLower t) costKeywords = false →
      containsAny (pyLower t) expenseKeywords = false →
      containsAny (pyLower t) salaryKeywords = false →
      forced_table t = none) ∧
    forced_table t ∈
      ([none, some ("ohs_oes"), some ("variable_expense"), some ("salary_expense")] :
        List (Option String)) ∧
    (∀ t' : String, pyLower t = pyLower t' → forced_table t = forced_table t') := by
  refine ⟨fun h1 => ?_, fun h1 h2 => ?_, fun h1 h2 h3 => ?_, fun h1 h2 h3 => ?_, ?_,
    fun t' h => ?_⟩
  · simp [forced_table, h1]
  · simp [forced_table, h1, h2]
  · simp [forced_table, h1, h2, h3]
  · simp [forced_table, h1, h2, h3]
  · by_cases h1 : containsAny (pyLower t) costKeywords = true
    · simp [forced_table, h1]
    · by_cases h2 : containsAny (pyLower t) expenseKeywords = true
      · simp [forced_table, h1, h2]
      · by_cases h3 : containsAny (pyLower t) salaryKeywords = true
        · simp [forced_table, h1, h2, h3]
        · simp [forced_table, h1, h2, h3]
  · simp [forced_table, h]

/-- Witness for C2: the text `total cost by month` contains the cost
keyword and routes to the overheads table. -/
theorem router_first_match_witness :
    forced_table ("total cost by month") = some ("ohs_oes") :=
  (router_first_match ("total cost by month")).1 (by decide)

/-- C9: blank or whitespace-only input returns immediately — the
conversation log is unchanged, the completion service is never called and
the store is never accessed. -/
theorem blank_input_noop (env : Env) (msgs : List Message) (u : String)
    (h : pyStrip u = "") :
    handle_message env msgs u = ⟨msgs, [], []⟩ :=
  handle_message_blank env msgs u h

/-! ### Concrete environments for witnesses -/

/-- A completion service that always answers `db_query`, and a store that
always succeeds with an empty table. -/
def env_const_db : Env := ⟨fun _ => "db_query", fun _ => .ok ⟨[]⟩⟩

/-- A completion service answering `db_query` to the classification prompt
and `select 1` to everything else, with a store that always fails. -/
def env_store_fails : Env :=
  ⟨fun p => if strContains p ("Classify") then "db_query" else "select 1",
   fun _ => .error ("boom")⟩

/-- A one-column table used by witnesses. -/
def df_wit : DataFrame := ⟨[("Cost", [.num ⟨5, 0⟩]), ("Month", [.str ("Jan")])]⟩

/-- A completion service answering `db_query` to the classification prompt
and `select 1` to everything else, with a store that returns `df_wit`. -/
def env_store_ok : Env :=
  ⟨fun p => if strContains p ("Classify") then "db_query" else "select 1",
   fun _ => .ok df_wit⟩

/-- A completion service that always answers with chit-chat. -/
def env_chat : Env := ⟨fun _ => "Hello! How can I help?", fun _ => .ok ⟨[]⟩⟩

/-- Witness for C9 at the whitespace-only input consisting of a space, a
tab and a newline. -/
theorem blank_input_noop_witness :
    handle_message env_chat [] (" \t\n") = ⟨[], [], []⟩ :=
  blank_input_noop env_chat [] (" \t\n") (by decide)

/-! ### Remaining claim theorems -/

/-- C1: the candidate SQL string is executed if and only if its stripped,
lower-cased text starts with the read-only keyword `select`; when the check
fails nothing reaches the store and an error-class bot message is appended,
and when it passes the string is handed to the store verbatim, with no
further validation. -/
theorem executor_prefix_gate (env : Env) (msgs : List Message) (u : String)
    (hne : ¬ pyStrip u = "")
    (hi : classify_intent env u ∈ (["prediction", "db_query"] : List String)) :
    ((handle_message env msgs u).storeQueries ≠ [] ↔
      pyStarts (pyLower (gen_sql env u)) ("select") = true) ∧
    (pyStarts (pyLower (gen_sql env u)) ("select") = false →
      (handle_message env msgs u).storeQueries = [] ∧
      (handle_message env msgs u).messages = msgs ++
        [⟨.text u, "user"⟩,
         ⟨.text ("Sorry, I could not create a valid SQL query. Please rephrase."), "bot"⟩]) ∧
    (pyStarts (pyLower (gen_sql env u)) ("select") = true →
      (handle_message env msgs u).storeQueries = [gen_sql env u]) := by
  by_cases hg : pyStarts (pyLower (gen_sql env u)) ("select") = true
  · have hq : (handle_message env msgs u).storeQueries = [gen_sql env u] := by
      cases hs : env.store (gen_sql env u) with
      | error e => rw [handle_message_store_error env msgs u e hne hi hg hs]
      | ok df =>
        rcases intent_label_cases env u hi with hp | hdb
        · rw [handle_message_ok_prediction env msgs u df hne hp hg hs]
        · rw [handle_message_ok_db env msgs u df hne hdb hg hs]
    refine ⟨⟨fun _ => hg, fun _ => by rw [hq]; simp⟩,
      fun hgf => by simp [hgf] at hg, fun _ => hq⟩
  · have hg' : pyStarts (pyLower (gen_sql env u)) ("select") = false := by simpa using hg
    have hm := handle_message_data_reject env msgs u hne hi hg'
    refine ⟨?_, fun _ => ⟨by rw [hm], by rw [hm]⟩, fun ht => absurd ht hg⟩
    rw [hm]
    simp [hg']

/-- Witness for C1: a completion service that always answers `db_query`
produces the candidate SQL `db_query`, which fails the prefix check, so no
store query is issued and the error-class bot message is appended. -/
theorem executor_prefix_gate_witness :
    (handle_message env_const_db [] ("hello")).storeQueries = [] ∧
    (handle_message env_const_db [] ("hello")).messages = [] ++
      [⟨.text ("hello"), "user"⟩,
       ⟨.text ("Sorry, I could not create a valid SQL query. Please rephrase."), "bot"⟩] :=
  (executor_prefix_gate env_const_db [] ("hello") (by decide) (by decide)).2.1 (by decide)

/-- C3: when the gate passes and the store raises, the turn appends exactly
the user message and one bot-visible error message — the log grows by
exactly two — and the session accepts the next input, whose turn again only
appends to the log. -/
theorem store_error_single_message (env : Env) (msgs : List Message) (u e : String)
    (hne : ¬ pyStrip u = "")
    (hi : classify_intent env u ∈ (["prediction", "db_query"] : List String))
    (hg : pyStarts (pyLower (gen_sql env u)) ("select") = true)
    (hs : env.store (gen_sql env u) = .error e) :
    (handle_message env msgs u).messages =
      msgs ++ [⟨.text u, "user"⟩,
        ⟨.text ("I tried to run a query but got an error: " ++ e ++ "."), "bot"⟩] ∧
    (handle_message env msgs u).messages.length = msgs.length + 2 ∧
    (((handle_message env msgs u).messages.drop msgs.length).filter
        (fun m => m.sender == "bot")).length = 1 ∧
    (∀ u' : String,
      (handle_message env (handle_message env msgs u).messages u').messages =
        (handle_message env msgs u).messages ∨
      ∃ b, (handle_message env (handle_message env msgs u).messages u').messages =
        (handle_message env msgs u).messages ++ [⟨.text u', "user"⟩, ⟨b, "bot"⟩]) := by
  have hm := handle_message_store_error env msgs u e hne hi hg hs
  have hb1 : (("user" : String) == "bot") = false := by decide
  have hb2 : (("bot" : String) == "bot") = true := by decide
  have h1 : (handle_message env msgs u).messages =
      msgs ++ [⟨.text u, "user"⟩,
        ⟨.text ("I tried to run a query but got an error: " ++ e ++ "."), "bot"⟩] := by
    rw [hm]
  refine ⟨h1, by rw [h1]; simp, ?_, fun u' => handle_message_shape env _ u'⟩
  rw [h1, List.drop_left]
  simp [List.filter, hb1, hb2]

set_option maxRecDepth 40000 in
/-- Witness for C3: with a store that always fails, the turn on input `hi`
appends the user message and the single error message. -/
theorem store_error_single_message_witness :
    (handle_message env_store_fails [] ("hi")).messages =
      [] ++ [⟨.text ("hi"), "user"⟩,
        ⟨.text ("I tried to run a query but got an error: " ++ "boom" ++ "."), "bot"⟩] :=
  (store_error_single_message env_store_fails [] ("hi") ("boom")
    (by decide) (by decide) (by decide) rfl).1

/-- C4: when the classified intent is not one of the data-query or
prediction labels, the turn takes the generic conversational path — the only
completion calls are the classification prompt and the smalltalk prompt (no
SQL prompt is built), the store is never accessed, and the bot reply is the
completion service's conversational answer. -/
theorem smalltalk_no_store_access (env : Env) (msgs : List Message) (u : String)
    (hne : ¬ pyStrip u = "")
    (hi : classify_intent env u ∉ (["prediction", "db_query"] : List String)) :
    (handle_message env msgs u).storeQueries = [] ∧
    (handle_message env msgs u).llmPrompts = [intent_prompt u, smalltalk_prompt u] ∧
    (handle_message env msgs u).messages =
      msgs ++ [⟨.text u, "user"⟩, ⟨.text (env.llm (smalltalk_prompt u)), "bot"⟩] := by
  have hm := handle_message_smalltalk env msgs u hne hi
  exact ⟨by rw [hm], by rw [hm], by rw [hm]⟩

/-- Witness for C4: the input `Hi there` with a chatty completion service
never touches the store. -/
theorem smalltalk_no_store_access_witness :
    (handle_message env_chat [] ("Hi there")).storeQueries = [] :=
  (smalltalk_no_store_access env_chat [] ("Hi there") (by decide) (by decide)).1

/-- C7: after a successful execution the bot message depends on the intent:
for `prediction` it is the completion service's reply to a prompt that
contains the serialized currency-formatted table; for `db_query` it is the
currency-formatted table itself. -/
theorem success_presentation (env : Env) (msgs : List Message) (u : String)
    (df : DataFrame)
    (hne : ¬ pyStrip u = "")
    (hg : pyStarts (pyLower (gen_sql env u)) ("select") = true)
    (hs : env.store (gen_sql env u) = .ok df) :
    (classify_intent env u = "prediction" →
      (handle_message env msgs u).messages =
        msgs ++ [⟨.text u, "user"⟩,
          ⟨.text (env.llm (prediction_prompt u (format_money_columns df))), "bot"⟩] ∧
      strContains (prediction_prompt u (format_money_columns df))
        (dfToString (format_money_columns df)) = true) ∧
    (classify_intent env u = "db_query" →
      (handle_message env msgs u).messages =
        msgs ++ [⟨.text u, "user"⟩, ⟨.table (format_money_columns df), "bot"⟩]) := by
  constructor
  · intro hp
    refine ⟨by rw [handle_message_ok_prediction env msgs u df hne hp hg hs], ?_⟩
    simp only [prediction_prompt]
    exact strContains_middle _ _ _
  · intro hdb
    rw [handle_message_ok_db env msgs u df hne hdb hg hs]

set_option maxRecDepth 40000 in
/-- Witness for C7: with a succeeding store and `db_query` intent, the bot
message is the currency-formatted table. -/
theorem success_presentation_witness :
    (handle_message env_store_ok [] ("show cost")).messages =
      [] ++ [⟨.text ("show cost"), "user"⟩,
        ⟨.table (format_money_columns df_wit), "bot"⟩] :=
  (success_presentation env_store_ok [] ("show cost") df_wit
    (by decide) (by decide) rfl).2 (by decide)

/-- C8: every turn only appends to the conversation log, every appended
entry is tagged `user` or `bot`, and in a handled turn the user message
precedes the single bot message. -/
theorem log_append_only (env : Env) (msgs : List Message) (u : String) :
    ∃ tail : List Message,
      (handle_message env msgs u).messages = msgs ++ tail ∧
      (∀ m ∈ tail, m.sender = "user" ∨ m.sender = "bot") ∧
      (tail = [] ∨ ∃ b, tail = [⟨.text u, "user"⟩, ⟨b, "bot"⟩]) := by
  rcases handle_message_shape env msgs u with h | ⟨b, h⟩
  · exact ⟨[], by simpa using h, by simp, Or.inl rfl⟩
  · refine ⟨[⟨.text u, "user"⟩, ⟨b, "bot"⟩], by simpa using h, ?_, Or.inr ⟨b, rfl⟩⟩
    intro m hm
    simp only [List.mem_cons, List.mem_singleton, List.not_mem_nil, or_false] at hm
    rcases hm with rfl | rfl
    · exact Or.inl rfl
    · exact Or.inr rfl

/-- Witness for C8 at a concrete environment and input. -/
theorem log_append_only_witness :
    ∃ tail : List Message,
      (handle_message env_chat [] ("yo")).messages = [] ++ tail ∧
      (∀ m ∈ tail, m.sender = "user" ∨ m.sender = "bot") ∧
      (tail = [] ∨ ∃ b, tail = [⟨.text ("yo"), "user"⟩, ⟨b, "bot"⟩]) :=
  log_append_only env_chat [] ("yo")

/-- C6: `format_money_columns` reformats, element-wise via `format_inr`,
exactly the columns whose lower-cased name contains `cost`, `expense` or
`salary`; every other column is unchanged, and the column order, column
names and number of rows are preserved. -/
theorem format_money_columns_spec (d : DataFrame) (i : Nat) :
    (format_money_columns d).cols.length = d.cols.length ∧
    (format_money_columns d).cols[i]? =
      (d.cols[i]?).map
        (fun c => if isMoneyCol c.1 then (c.1, c.2.map format_inr) else c) ∧
    ((format_money_columns d).cols[i]?).map Prod.fst = (d.cols[i]?).map Prod.fst ∧
    ((format_money_columns d).cols[i]?).map (fun c => c.2.length) =
      (d.cols[i]?).map (fun c => c.2.length) ∧
    (∀ c, d.cols[i]? = some c → isMoneyCol c.1 = false →
      (format_money_columns d).cols[i]? = some c) := by
  obtain ⟨cols⟩ := d
  refine ⟨by simp [format_money_columns], by simp [format_money_columns], ?_, ?_, ?_⟩
  · simp only [format_money_columns, List.getElem?_map]
    cases cols[i]? with
    | none => rfl
    | some c => by_cases h : isMoneyCol c.1 <;> simp [h]
  · simp only [format_money_columns, List.getElem?_map]
    cases cols[i]? with
    | none => rfl
    | some c => by_cases h : isMoneyCol c.1 <;> simp [h]
  · intro c hc hmc
    simp [format_money_columns, List.getElem?_map, hc, hmc]

/-- Witness for C6: a non-money column (`Month`) passes through unchanged in
the witness table. -/
theorem format_money_columns_spec_witness :
    (format_money_columns df_wit).cols[1]? = some ("Month", [.str ("Jan")]) :=
  (format_money_columns_spec df_wit 1).2.2.2.2 ("Month", [.str ("Jan")])
    (by decide) (by decide)
